import Mathlib

/-!
Shallow embedding of the FastAPI tutorial repository (My-FastAPI).

Each Python example file that the claims touch is embedded as a Lean
namespace.  Python dictionaries become association lists
(`List (String × α)` with `List.lookup`), route handlers become pure
functions returning `Except HTTPException α`, and mutation of a
module-level dictionary is made explicit by returning the new dictionary
alongside the handler result.  Floating point numbers in the examples are
only stored and compared (never computed with), so they are modelled by `ℚ`.
-/

/-- Embedding of `fastapi.HTTPException`: status code, detail string and
optional extra headers. -/
structure HTTPException where
  status_code : Nat
  detail : String
  headers : List (String × String) := []
deriving DecidableEq, Repr

namespace SimpleOAuth2
/-! Embedding of `src/_30_Security_Simple_OAuth2.py`. -/

/-- Embedding of the `UserInDB` pydantic model (fields of `User` plus
`hashed_password`). -/
structure UserInDB where
  username : String
  full_name : Option String
  email : Option String
  hashed_password : String
  disabled : Option Bool
deriving DecidableEq, Repr

/-- The module-level `fake_users_db` dictionary, values already in
`UserInDB` form (every stored dict parses to a `UserInDB`). -/
def fake_users_db : List (String × UserInDB) :=
  [ ("johndoe",
      { username := "johndoe"
        full_name := some "John Doe"
        email := some "johndoe@example.com"
        hashed_password := "fakehashedsecret"
        disabled := some false }),
    ("alice",
      { username := "alice"
        full_name := some "Alice Wonderson"
        email := some "alice@example.com"
        hashed_password := "fakehashedsecret2"
        disabled := some true }) ]

/-- Embedding of `fake_hash_password`. -/
def fake_hash_password (password : String) : String :=
  "fakehashed" ++ password

/-- Embedding of the JSON object `{"access_token": ..., "token_type": ...}`
returned by `login`. -/
structure TokenResponse where
  access_token : String
  token_type : String
deriving DecidableEq, Repr

/-- Embedding of the `login` handler (`POST /token`).  The db is passed and
returned explicitly; the source never assigns into `fake_users_db`, so the
returned db is the input db.  `fake_users_db.get(username)` is `lookup`;
`if not user_dict` is the `none` case (every record of the db is a non-empty
dict, hence truthy). -/
def login (db : List (String × UserInDB)) (username password : String) :
    Except HTTPException TokenResponse × List (String × UserInDB) :=
  match db.lookup username with
  | none => (Except.error { status_code := 400, detail := "Incorrect username or password" }, db)
  | some user =>
      let hashed_password := fake_hash_password password
      if hashed_password = user.hashed_password then
        (Except.ok { access_token := user.username, token_type := "bearer" }, db)
      else
        (Except.error { status_code := 400, detail := "Incorrect username or password" }, db)

/-- Embedding of `get_user`: `if username in db: return UserInDB(**db[username])`,
falling through to `None` otherwise. -/
def get_user (db : List (String × UserInDB)) (username : String) : Option UserInDB :=
  db.lookup username

/-- Embedding of `fake_decode_token`. -/
def fake_decode_token (token : String) : Option UserInDB :=
  get_user fake_users_db token

/-- Embedding of the `get_current_user` dependency: `if not user` is the
`none` case (a model instance is truthy, `None` is falsy). -/
def get_current_user (token : String) : Except HTTPException UserInDB :=
  match fake_decode_token token with
  | none =>
      Except.error
        { status_code := 401
          detail := "Invalid authentication credentials"
          headers := [("WWW-Authenticate", "Bearer")] }
  | some user => Except.ok user

/-- Embedding of `get_current_active_user`: `if current_user.disabled`
is Python truthiness of `bool | None`, i.e. `disabled = some true`. -/
def get_current_active_user (current_user : UserInDB) : Except HTTPException UserInDB :=
  if current_user.disabled.getD false then
    Except.error { status_code := 400, detail := "Inactive user" }
  else
    Except.ok current_user

/-- The `/users/me` dependency chain: resolve the token, then check the
user is active. -/
def users_me (token : String) : Except HTTPException UserInDB :=
  (get_current_user token).bind get_current_active_user

end SimpleOAuth2

namespace HandlingErrors
/-! Embedding of `src/_18_Handling_Errors.py`. -/

/-- The module-level `items` dictionary: `{"foo": "The Foo Wrestlers"}`. -/
def items : List (String × String) :=
  [("foo", "The Foo Wrestlers")]

/-- The success payload of both handlers: the JSON object
`{"item": items[item_id]}`. -/
structure ItemResponse where
  item : String
deriving DecidableEq, Repr

/-- Embedding of `read_item` (`GET /items/{item_id}`); the dictionary is
passed and returned explicitly (the handler only reads it). -/
def read_item (db : List (String × String)) (item_id : String) :
    Except HTTPException ItemResponse × List (String × String) :=
  match db.lookup item_id with
  | none => (Except.error { status_code := 404, detail := " 404 Item not found" }, db)
  | some v => (Except.ok { item := v }, db)

/-- Embedding of `read_item_header` (`GET /items-header/{item_id}`). -/
def read_item_header (db : List (String × String)) (item_id : String) :
    Except HTTPException ItemResponse × List (String × String) :=
  match db.lookup item_id with
  | none =>
      (Except.error
        { status_code := 404
          detail := "Item not found"
          headers := [("X-Error", "There goes my error")] }, db)
  | some v => (Except.ok { item := v }, db)

end HandlingErrors

namespace BodyUpdates
/-! Embedding of `src/_21_Body_Updates.py`.

A JSON request body for the `Item` model, and likewise a stored dictionary
entry, is a partial record: each field may be absent.  `ItemFields` records
each field as `Option`; for the three fields whose declared type is itself
nullable (`name`, `description`, `price`) the carried value is again an
`Option`, so that an explicit `null` and an absent field are distinct, as
they are for pydantic's `exclude_unset`. -/

/-- A partial `Item` record: a JSON object over the fields of the `Item`
model, each field possibly absent.  Used both for request bodies (where
absent = unset) and for the stored dictionary values. -/
structure ItemFields where
  name : Option (Option String) := none
  description : Option (Option String) := none
  price : Option (Option ℚ) := none
  tax : Option ℚ := none
  tags : Option (List String) := none
deriving DecidableEq, Repr

/-- Embedding of the `Item` pydantic model of `_21_Body_Updates.py`:
`name`, `description`, `price` default to `None`, `tax` to `10.5`,
`tags` to `[]`. -/
structure Item where
  name : Option String := none
  description : Option String := none
  price : Option ℚ := none
  tax : ℚ := 10.5
  tags : List String := []
deriving DecidableEq, Repr

/-- Parsing a partial record through the `Item` model (`Item(**data)` or
body parsing): absent fields take the model defaults. -/
def parseItem (r : ItemFields) : Item :=
  { name := r.name.getD none
    description := r.description.getD none
    price := r.price.getD none
    tax := r.tax.getD 10.5
    tags := r.tags.getD [] }

/-- Embedding of `jsonable_encoder` on a full `Item` model: a JSON object
in which every field of the model is present. -/
def jsonable_encoder (it : Item) : ItemFields :=
  { name := some it.name
    description := some it.description
    price := some it.price
    tax := some it.tax
    tags := some it.tags }

/-- Embedding of `item.model_copy(update=item.model_dump(exclude_unset=True))`
as performed by the PATCH handler: fields present in the request override
the stored model, absent (unset) fields are left alone. -/
def model_copy_update (m : Item) (u : ItemFields) : Item :=
  { name := u.name.getD m.name
    description := u.description.getD m.description
    price := u.price.getD m.price
    tax := u.tax.getD m.tax
    tags := u.tags.getD m.tags }

/-- Python dict assignment `d[k] = v`: replace the entry in place when the
key is present, append it otherwise. -/
def dictSet (l : List (String × ItemFields)) (k : String) (v : ItemFields) :
    List (String × ItemFields) :=
  if l.any (fun p => p.1 = k) then
    l.map (fun p => if p.1 = k then (k, v) else p)
  else
    l ++ [(k, v)]

/-- The module-level `items` dictionary of `_21_Body_Updates.py`. -/
def items : List (String × ItemFields) :=
  [ ("foo", { name := some (some "Foo"), price := some (some 50.2) }),
    ("bar",
      { name := some (some "Bar")
        description := some (some "The bartenders")
        price := some (some 62)
        tax := some 20.2 }),
    ("baz",
      { name := some (some "Baz")
        description := some none
        price := some (some 50.2)
        tax := some 10.5
        tags := some [] }) ]

/-- Embedding of the PUT `update_item` handler: encode the parsed body and
store it under `item_id`, returning the encoded value and the new
dictionary. -/
def put_update_item (db : List (String × ItemFields)) (item_id : String)
    (body : ItemFields) : ItemFields × List (String × ItemFields) :=
  let update_item_encoded := jsonable_encoder (parseItem body)
  (update_item_encoded, dictSet db item_id update_item_encoded)

/-- Embedding of the PATCH `update_item` handler.  `items[item_id]` raises
`KeyError` when the key is absent, hence the `Option` result; on success the
stored partial record is parsed through `Item`, the set fields of the body
are copied over it, and the re-encoded model is stored back. -/
def patch_update_item (db : List (String × ItemFields)) (item_id : String)
    (body : ItemFields) : Option (Item × List (String × ItemFields)) :=
  match db.lookup item_id with
  | none => none
  | some stored_item_data =>
      let stored_item_model := parseItem stored_item_data
      let updated_item := model_copy_update stored_item_model body
      some (updated_item, dictSet db item_id (jsonable_encoder updated_item))

end BodyUpdates

namespace BodyFields
/-! Embedding of `src/_9_Body_Fields.py`. -/

/-- A type-correct candidate body for the `Item` model of `_9_Body_Fields.py`
(required `name : str`, optional `description`, required `price : float`,
optional `tax`); constraint validation acts on such candidates. -/
structure ItemCandidate where
  name : String
  description : Option String := none
  price : ℚ
  tax : Option ℚ := none
deriving DecidableEq, Repr

/-- Embedding of the declared `Field` constraints of the `Item` model:
`description` has `max_length=300` (checked only when provided) and `price`
has `gt=0`.  Returns `true` when the body passes validation; `false` is the
HTTP 422 validation error. -/
def validate_item (c : ItemCandidate) : Bool :=
  (match c.description with
   | none => true
   | some d => decide (d.length ≤ 300)) &&
  decide (0 < c.price)

end BodyFields

namespace QueryValidations
/-! Embedding of the string-validations `read_items` of
`src/_6_Query_Parameters_and_String_Validations.py` (lines 50-59). -/

/-- A character matched by the character class `[a-zA-Z0-9 ]` of the
declared regex. -/
def allowed_char (c : Char) : Bool :=
  (decide ('a' ≤ c) && decide (c ≤ 'z')) ||
  (decide ('A' ≤ c) && decide (c ≤ 'Z')) ||
  (decide ('0' ≤ c) && decide (c ≤ '9')) ||
  decide (c = ' ')

/-- Embedding of the declared query validation of `q`:
`Query(default=None, min_length=3, max_length=50, regex="^[a-zA-Z0-9 ]*$")`.
An absent `q` (default `None`) always passes; a provided `q` passes exactly
when the three constraints hold. -/
def validate_q : Option String → Bool
  | none => true
  | some s =>
      decide (3 ≤ s.length) && decide (s.length ≤ 50) && s.data.all allowed_char

end QueryValidations

namespace ExtraModels
/-! Embedding of `src/_13_Extra_Models.py` (the first, non-inheritance
version of the models, lines 25-56). -/

/-- Embedding of the `UserIn` model. -/
structure UserIn where
  username : String
  password : String
  email : String
  full_name : Option String := none
deriving DecidableEq, Repr

/-- Embedding of the `UserInDB` model. -/
structure UserInDB where
  username : String
  hashed_password : String
  email : String
  full_name : Option String := none
deriving DecidableEq, Repr

/-- Embedding of the `UserOut` model. -/
structure UserOut where
  username : String
  email : String
  full_name : Option String := none
deriving DecidableEq, Repr

/-- Embedding of `fake_password_hasher`. -/
def fake_password_hasher (raw_password : String) : String :=
  "supersecret" ++ raw_password

/-- Embedding of `fake_save_user`:
`UserInDB(**user_in.model_dump(), hashed_password=...)`. -/
def fake_save_user (user_in : UserIn) : UserInDB :=
  { username := user_in.username
    hashed_password := fake_password_hasher user_in.password
    email := user_in.email
    full_name := user_in.full_name }

/-- Filtering a `UserInDB` through `response_model=UserOut`: only the
fields declared on `UserOut` survive serialization. -/
def filter_user_out (u : UserInDB) : UserOut :=
  { username := u.username, email := u.email, full_name := u.full_name }

/-- Embedding of the `create_user` handler (`POST /user/`) including its
`response_model=UserOut` serialization. -/
def create_user (user_in : UserIn) : UserOut :=
  filter_user_out (fake_save_user user_in)

/-- The serialized JSON document of a `UserOut` response, as a key/value
list (`full_name` may be JSON `null`). -/
def encode_user_out (u : UserOut) : List (String × Option String) :=
  [("username", some u.username), ("email", some u.email), ("full_name", u.full_name)]

end ExtraModels

namespace SQLModelApp
/-! Embedding of `src/_34_SQL_Databases_with_SQLModel.py`. -/

/-- Embedding of the `Hero` table model (`id` is assigned by the database
for stored rows, so stored heroes carry an `Int` id). -/
structure Hero where
  id : Int
  name : String
  age : Option Int := none
  secret_name : String
deriving DecidableEq, Repr

/-- A `HeroUpdate` request body with `exclude_unset` tracking: each field
is absent (`none`) or sent.  `age` is nullable in `Hero`, so a sent `age`
carries again an `Option`. -/
structure HeroUpdate where
  name : Option String := none
  age : Option (Option Int) := none
  secret_name : Option String := none
deriving DecidableEq, Repr

/-- Embedding of `hero_db.sqlmodel_update(hero.model_dump(exclude_unset=True))`:
fields present in the request override the stored row, absent fields are
left alone. -/
def sqlmodel_update (h : Hero) (u : HeroUpdate) : Hero :=
  { h with
    name := u.name.getD h.name
    age := u.age.getD h.age
    secret_name := u.secret_name.getD h.secret_name }

/-- Embedding of `update_hero` (`PATCH /heroes/{hero_id}`): the table is an
association list keyed by primary key (`session.get(Hero, hero_id)`), and
the committed table is returned alongside the response. -/
def update_hero (db : List (Int × Hero)) (hero_id : Int) (hero : HeroUpdate) :
    Except HTTPException Hero × List (Int × Hero) :=
  match db.lookup hero_id with
  | none => (Except.error { status_code := 404, detail := "Hero not found" }, db)
  | some hero_db =>
      let updated := sqlmodel_update hero_db hero
      (Except.ok updated,
       db.map (fun p => if p.1 = hero_id then (hero_id, updated) else p))

/-- SQL `OFFSET` as executed by SQLite: a negative offset behaves like
zero. -/
def sqlOffset (rows : List Hero) (offset : Int) : List Hero :=
  rows.drop offset.toNat

/-- SQL `LIMIT` as executed by SQLite: a nonnegative limit caps the number
of returned rows; a negative limit places no upper bound on them. -/
def sqlLimit (rows : List Hero) (limit : Int) : List Hero :=
  if limit < 0 then rows else rows.take limit.toNat

/-- Embedding of the query of `read_heroes`:
`select(Hero).offset(offset).limit(limit)` over the stored rows. -/
def read_heroes (rows : List Hero) (offset limit : Int) : List Hero :=
  sqlLimit (sqlOffset rows offset) limit

/-- Embedding of the declared validation of the `limit` query parameter:
`Annotated[int, Query(le=100)]` (no lower bound is declared). -/
def validate_limit (limit : Int) : Bool :=
  decide (limit ≤ 100)

end SQLModelApp

/-- The combined module-level mutable state of the embedded example files:
each file owns its component and no other (`_18_Handling_Errors.py` its
`items`, `_21_Body_Updates.py` its `items`, `_30_Security_Simple_OAuth2.py`
its `fake_users_db`). -/
structure GlobalState where
  items18 : List (String × String)
  items21 : List (String × BodyUpdates.ItemFields)
  users30 : List (String × SimpleOAuth2.UserInDB)
deriving DecidableEq, Repr

/-- The `read_item` handler of `_18_Handling_Errors.py` run against the
combined state. -/
def runReadItem18 (s : GlobalState) (item_id : String) :
    Except HTTPException HandlingErrors.ItemResponse × GlobalState :=
  let r := HandlingErrors.read_item s.items18 item_id
  (r.1, { s with items18 := r.2 })

/-- The PUT `update_item` handler of `_21_Body_Updates.py` run against the
combined state. -/
def runPut21 (s : GlobalState) (item_id : String) (body : BodyUpdates.ItemFields) :
    BodyUpdates.ItemFields × GlobalState :=
  let r := BodyUpdates.put_update_item s.items21 item_id body
  (r.1, { s with items21 := r.2 })

/-- The `login` handler of `_30_Security_Simple_OAuth2.py` run against the
combined state. -/
def runLogin30 (s : GlobalState) (username password : String) :
    Except HTTPException SimpleOAuth2.TokenResponse × GlobalState :=
  let r := SimpleOAuth2.login s.users30 username password
  (r.1, { s with users30 := r.2 })

/-! Theorems. -/

/-- On an association list, `lookup` returns `none` exactly when the key is
not among the keys. -/
theorem lookup_eq_none_iff_not_key {α : Type} (l : List (String × α)) (k : String) :
    l.lookup k = none ↔ k ∉ l.map Prod.fst := by
  induction l with
  | nil => simp
  | cons p t ih =>
      obtain ⟨a, b⟩ := p
      by_cases h : k = a
      · subst h
        simp [List.lookup]
      · have hb : (k == a) = false := beq_eq_false_iff_ne.mpr h
        simp [List.lookup, hb, h, ih]

/-- C1: `login` of the Simple-OAuth2 example raises HTTP 400
"Incorrect username or password" exactly when the submitted username is not
a key of `fake_users_db` or `"fakehashed" + password` differs from the
stored `hashed_password`; otherwise it returns
`{"access_token": username, "token_type": "bearer"}`, and `fake_users_db`
is unchanged in every case. -/
theorem login_spec (username password : String) :
    (SimpleOAuth2.login SimpleOAuth2.fake_users_db username password).2 =
      SimpleOAuth2.fake_users_db ∧
    (((SimpleOAuth2.login SimpleOAuth2.fake_users_db username password).1 =
        Except.error { status_code := 400, detail := "Incorrect username or password" }) ↔
      (username ∉ SimpleOAuth2.fake_users_db.map Prod.fst ∨
        ∃ u, SimpleOAuth2.fake_users_db.lookup username = some u ∧
          SimpleOAuth2.fake_hash_password password ≠ u.hashed_password)) ∧
    (∀ u, SimpleOAuth2.fake_users_db.lookup username = some u →
      SimpleOAuth2.fake_hash_password password = u.hashed_password →
      (SimpleOAuth2.login SimpleOAuth2.fake_users_db username password).1 =
        Except.ok { access_token := username, token_type := "bearer" }) := by
  by_cases h1 : username = "johndoe"
  · subst h1
    by_cases hp : SimpleOAuth2.fake_hash_password password = "fakehashedsecret" <;>
      simp [SimpleOAuth2.login, SimpleOAuth2.fake_users_db, List.lookup, hp]
  · by_cases h2 : username = "alice"
    · subst h2
      by_cases hp : SimpleOAuth2.fake_hash_password password = "fakehashedsecret2" <;>
        simp [SimpleOAuth2.login, SimpleOAuth2.fake_users_db, List.lookup, hp]
    · have hb1 : (username == "johndoe") = false := by
        simp [h1]
      have hb2 : (username == "alice") = false := by
        simp [h2]
      simp [SimpleOAuth2.login, SimpleOAuth2.fake_users_db, List.lookup, hb1, hb2, h1, h2]

/-- C1 witness: with the valid credentials `johndoe` / `secret`, `login`
returns the bearer token. -/
theorem login_spec_witness :
    (SimpleOAuth2.login SimpleOAuth2.fake_users_db "johndoe" "secret").1 =
      Except.ok { access_token := "johndoe", token_type := "bearer" } :=
  (login_spec "johndoe" "secret").2.2
    { username := "johndoe"
      full_name := some "John Doe"
      email := some "johndoe@example.com"
      hashed_password := "fakehashedsecret"
      disabled := some false }
    (by decide) (by decide)

/-- C2: `read_item` and `read_item_header` of the Handling-Errors example
raise HTTP 404 exactly when `item_id` is not a key of `items`, otherwise
return the stored item; in both outcomes `items` is unchanged, and
`read_item_header`'s 404 carries the header `X-Error: There goes my error`. -/
theorem read_item_404_spec (item_id : String) :
    (HandlingErrors.read_item HandlingErrors.items item_id).2 = HandlingErrors.items ∧
    (HandlingErrors.read_item_header HandlingErrors.items item_id).2 = HandlingErrors.items ∧
    ((∃ e, (HandlingErrors.read_item HandlingErrors.items item_id).1 = Except.error e ∧
        e.status_code = 404) ↔
      item_id ∉ HandlingErrors.items.map Prod.fst) ∧
    ((HandlingErrors.read_item_header HandlingErrors.items item_id).1 =
        Except.error
          { status_code := 404
            detail := "Item not found"
            headers := [("X-Error", "There goes my error")] } ↔
      item_id ∉ HandlingErrors.items.map Prod.fst) ∧
    (∀ v, HandlingErrors.items.lookup item_id = some v →
      (HandlingErrors.read_item HandlingErrors.items item_id).1 =
        Except.ok { item := v } ∧
      (HandlingErrors.read_item_header HandlingErrors.items item_id).1 =
        Except.ok { item := v }) := by
  by_cases h : item_id = "foo"
  · subst h
    simp [HandlingErrors.read_item, HandlingErrors.read_item_header,
      HandlingErrors.items, List.lookup]
  · have hb : (item_id == "foo") = false := by
      simp [h]
    simp [HandlingErrors.read_item, HandlingErrors.read_item_header,
      HandlingErrors.items, List.lookup, hb, h]

/-- C2 witness: the key `foo` is present and both handlers return its
stored value. -/
theorem read_item_404_spec_witness :
    (HandlingErrors.read_item HandlingErrors.items "foo").1 =
      Except.ok { item := "The Foo Wrestlers" } :=
  ((read_item_404_spec "foo").2.2.2.2 "The Foo Wrestlers" (by decide)).1

/-- C10: `get_user` returns `None` exactly when the username is not a key
of the db, and the `/users/me` dependency chain is total over outcomes:
401 with header `WWW-Authenticate: Bearer` exactly when the token is not a
username of `fake_users_db`, 400 "Inactive user" exactly when the token
names a disabled user, and the user record otherwise. -/
theorem users_me_spec :
    (∀ (db : List (String × SimpleOAuth2.UserInDB)) (username : String),
      SimpleOAuth2.get_user db username = none ↔ username ∉ db.map Prod.fst) ∧
    (∀ token : String,
      (SimpleOAuth2.users_me token =
          Except.error
            { status_code := 401
              detail := "Invalid authentication credentials"
              headers := [("WWW-Authenticate", "Bearer")] } ↔
        token ∉ SimpleOAuth2.fake_users_db.map Prod.fst) ∧
      (SimpleOAuth2.users_me token =
          Except.error { status_code := 400, detail := "Inactive user" } ↔
        ∃ u, SimpleOAuth2.fake_users_db.lookup token = some u ∧ u.disabled = some true) ∧
      (∀ u, SimpleOAuth2.fake_users_db.lookup token = some u → u.disabled ≠ some true →
        SimpleOAuth2.users_me token = Except.ok u)) := by
  constructor
  · intro db username
    exact lookup_eq_none_iff_not_key db username
  · intro token
    by_cases h1 : token = "johndoe"
    · subst h1
      simp [SimpleOAuth2.users_me, SimpleOAuth2.get_current_user,
        SimpleOAuth2.fake_decode_token, SimpleOAuth2.get_user,
        SimpleOAuth2.get_current_active_user, SimpleOAuth2.fake_users_db,
        List.lookup, Except.bind]
    · by_cases h2 : token = "alice"
      · subst h2
        simp [SimpleOAuth2.users_me, SimpleOAuth2.get_current_user,
          SimpleOAuth2.fake_decode_token, SimpleOAuth2.get_user,
          SimpleOAuth2.get_current_active_user, SimpleOAuth2.fake_users_db,
          List.lookup, Except.bind]
      · have hb1 : (token == "johndoe") = false := by
          simp [h1]
        have hb2 : (token == "alice") = false := by
          simp [h2]
        simp [SimpleOAuth2.users_me, SimpleOAuth2.get_current_user,
          SimpleOAuth2.fake_decode_token, SimpleOAuth2.get_user,
          SimpleOAuth2.get_current_active_user, SimpleOAuth2.fake_users_db,
          List.lookup, Except.bind, hb1, hb2, h1, h2]

/-- C10 witness: the token `johndoe` names an active user, and `/users/me`
returns their record; the token `alice` names a disabled user. -/
theorem users_me_spec_witness :
    SimpleOAuth2.users_me "johndoe" =
      Except.ok
        { username := "johndoe"
          full_name := some "John Doe"
          email := some "johndoe@example.com"
          hashed_password := "fakehashedsecret"
          disabled := some false } :=
  (users_me_spec.2 "johndoe").2.2
    { username := "johndoe"
      full_name := some "John Doe"
      email := some "johndoe@example.com"
      hashed_password := "fakehashedsecret"
      disabled := some false }
    (by decide) (by decide)

/-- Overwriting an existing key in place makes `lookup` find the new
value. -/
theorem lookup_map_overwrite (l : List (String × BodyUpdates.ItemFields)) (k : String)
    (v : BodyUpdates.ItemFields) (h : l.any (fun p => p.1 = k) = true) :
    (l.map (fun p => if p.1 = k then (k, v) else p)).lookup k = some v := by
  induction l with
  | nil => simp at h
  | cons p t ih =>
      obtain ⟨a, b⟩ := p
      by_cases ha : a = k
      · subst ha
        have he : List.map (fun p : String × BodyUpdates.ItemFields =>
            if p.1 = a then (a, v) else p) ((a, b) :: t) =
            (a, v) :: List.map (fun p => if p.1 = a then (a, v) else p) t := by
          simp
        rw [he]
        simp [List.lookup]
      · have hb : (k == a) = false := beq_eq_false_iff_ne.mpr (Ne.symm ha)
        have he : List.map (fun p : String × BodyUpdates.ItemFields =>
            if p.1 = k then (k, v) else p) ((a, b) :: t) =
            (a, b) :: List.map (fun p => if p.1 = k then (k, v) else p) t := by
          simp [ha]
        rw [he]
        simp only [List.any_cons, Bool.or_eq_true, decide_eq_true_eq] at h
        rcases h with h | h
        · exact absurd h ha
        · simpa [List.lookup, hb] using ih h

/-- Appending a fresh key makes `lookup` find its value. -/
theorem lookup_append_self (l : List (String × BodyUpdates.ItemFields)) (k : String)
    (v : BodyUpdates.ItemFields) (h : l.any (fun p => p.1 = k) = false) :
    (l ++ [(k, v)]).lookup k = some v := by
  induction l with
  | nil => simp [List.lookup]
  | cons p t ih =>
      obtain ⟨a, b⟩ := p
      simp only [List.any_cons, Bool.or_eq_false_iff, decide_eq_false_iff_not] at h
      have hb : (k == a) = false := beq_eq_false_iff_ne.mpr (Ne.symm h.1)
      simpa [List.lookup, hb] using ih h.2

/-- After `d[k] = v` the entry stored under `k` is `v`. -/
theorem dictSet_lookup_self (l : List (String × BodyUpdates.ItemFields)) (k : String)
    (v : BodyUpdates.ItemFields) :
    (BodyUpdates.dictSet l k v).lookup k = some v := by
  unfold BodyUpdates.dictSet
  split
  · rename_i h
    exact lookup_map_overwrite l k v h
  · rename_i h
    exact lookup_append_self l k v (Bool.not_eq_true _ |>.mp h)

/-- C8: the PUT `update_item` of the Body-Updates example stores exactly
the JSON encoding of the request body with model defaults filled in for
omitted fields (`tax` becomes `10.5`, `tags` becomes `[]`, omitted
`name`/`description`/`price` become `null`), and the stored result is
independent of what was stored before. -/
theorem put_update_item_spec (db : List (String × BodyUpdates.ItemFields))
    (item_id : String) (body : BodyUpdates.ItemFields) :
    ((BodyUpdates.put_update_item db item_id body).2.lookup item_id =
      some (BodyUpdates.jsonable_encoder (BodyUpdates.parseItem body))) ∧
    ((BodyUpdates.put_update_item db item_id body).1 =
      BodyUpdates.jsonable_encoder (BodyUpdates.parseItem body)) ∧
    (body.tax = none →
      (BodyUpdates.jsonable_encoder (BodyUpdates.parseItem body)).tax = some 10.5) ∧
    (body.tags = none →
      (BodyUpdates.jsonable_encoder (BodyUpdates.parseItem body)).tags = some []) ∧
    (body.name = none →
      (BodyUpdates.jsonable_encoder (BodyUpdates.parseItem body)).name = some none) ∧
    (body.description = none →
      (BodyUpdates.jsonable_encoder (BodyUpdates.parseItem body)).description = some none) ∧
    (body.price = none →
      (BodyUpdates.jsonable_encoder (BodyUpdates.parseItem body)).price = some none) ∧
    (∀ db2, (BodyUpdates.put_update_item db2 item_id body).2.lookup item_id =
      (BodyUpdates.put_update_item db item_id body).2.lookup item_id) := by
  refine ⟨?_, rfl, ?_, ?_, ?_, ?_, ?_, ?_⟩
  · exact dictSet_lookup_self db item_id _
  · intro h
    simp [BodyUpdates.jsonable_encoder, BodyUpdates.parseItem, h]
  · intro h
    simp [BodyUpdates.jsonable_encoder, BodyUpdates.parseItem, h]
  · intro h
    simp [BodyUpdates.jsonable_encoder, BodyUpdates.parseItem, h]
  · intro h
    simp [BodyUpdates.jsonable_encoder, BodyUpdates.parseItem, h]
  · intro h
    simp [BodyUpdates.jsonable_encoder, BodyUpdates.parseItem, h]
  · intro db2
    exact (dictSet_lookup_self db2 item_id _).trans (dictSet_lookup_self db item_id _).symm

/-- C8 witness: a PUT with an empty body replaces the stored `foo` entry by
the all-defaults record. -/
theorem put_update_item_spec_witness :
    (BodyUpdates.put_update_item BodyUpdates.items "foo" {}).2.lookup "foo" =
      some
        { name := some none
          description := some none
          price := some none
          tax := some 10.5
          tags := some [] } :=
  (put_update_item_spec BodyUpdates.items "foo" {}).1

/-- C3: the PATCH update operations change only the fields explicitly set
in the request: in the Body-Updates example every unset field of the body
leaves the corresponding field of the stored record (as parsed through the
`Item` model) at its prior value, and in the SQLModel example
`sqlmodel_update` with the `exclude_unset` dump keeps every unsent field of
the stored hero row. -/
theorem patch_updates_frame_spec :
    (∀ (db : List (String × BodyUpdates.ItemFields)) (item_id : String)
      (body stored : BodyUpdates.ItemFields) (it : BodyUpdates.Item)
      (newdb : List (String × BodyUpdates.ItemFields)),
      db.lookup item_id = some stored →
      BodyUpdates.patch_update_item db item_id body = some (it, newdb) →
      (body.name = none → it.name = (BodyUpdates.parseItem stored).name ∧
        ∀ w, stored.name = some w → it.name = w) ∧
      (body.description = none → it.description = (BodyUpdates.parseItem stored).description ∧
        ∀ w, stored.description = some w → it.description = w) ∧
      (body.price = none → it.price = (BodyUpdates.parseItem stored).price ∧
        ∀ w, stored.price = some w → it.price = w) ∧
      (body.tax = none → it.tax = (BodyUpdates.parseItem stored).tax ∧
        ∀ w, stored.tax = some w → it.tax = w) ∧
      (body.tags = none → it.tags = (BodyUpdates.parseItem stored).tags ∧
        ∀ w, stored.tags = some w → it.tags = w) ∧
      (∀ w, body.name = some w → it.name = w) ∧
      (∀ w, body.description = some w → it.description = w) ∧
      (∀ w, body.price = some w → it.price = w) ∧
      (∀ w, body.tax = some w → it.tax = w) ∧
      (∀ w, body.tags = some w → it.tags = w) ∧
      newdb.lookup item_id = some (BodyUpdates.jsonable_encoder it)) ∧
    (∀ (db : List (Int × SQLModelApp.Hero)) (hero_id : Int)
      (u : SQLModelApp.HeroUpdate) (h : SQLModelApp.Hero),
      db.lookup hero_id = some h →
      (SQLModelApp.update_hero db hero_id u).1 =
        Except.ok (SQLModelApp.sqlmodel_update h u) ∧
      (SQLModelApp.sqlmodel_update h u).id = h.id ∧
      (u.name = none → (SQLModelApp.sqlmodel_update h u).name = h.name) ∧
      (u.age = none → (SQLModelApp.sqlmodel_update h u).age = h.age) ∧
      (u.secret_name = none → (SQLModelApp.sqlmodel_update h u).secret_name = h.secret_name) ∧
      (∀ w, u.name = some w → (SQLModelApp.sqlmodel_update h u).name = w) ∧
      (∀ w, u.age = some w → (SQLModelApp.sqlmodel_update h u).age = w) ∧
      (∀ w, u.secret_name = some w → (SQLModelApp.sqlmodel_update h u).secret_name = w)) := by
  constructor
  · intro db item_id body stored it newdb hlook hpatch
    simp only [BodyUpdates.patch_update_item, hlook] at hpatch
    simp only [Option.some.injEq, Prod.mk.injEq] at hpatch
    obtain ⟨hit, hdb⟩ := hpatch
    subst hit
    subst hdb
    refine ⟨?_, ?_, ?_, ?_, ?_, ?_, ?_, ?_, ?_, ?_, ?_⟩ <;>
      first
        | (intro h
           constructor
           · simp [BodyUpdates.model_copy_update, h]
           · intro w hw
             simp [BodyUpdates.model_copy_update, BodyUpdates.parseItem, h, hw])
        | (intro w hw
           simp [BodyUpdates.model_copy_update, hw])
        | exact dictSet_lookup_self db item_id _
  · intro db hero_id u h hlook
    refine ⟨?_, rfl, ?_, ?_, ?_, ?_, ?_, ?_⟩
    · simp only [SQLModelApp.update_hero, hlook]
    · intro hn
      simp [SQLModelApp.sqlmodel_update, hn]
    · intro hn
      simp [SQLModelApp.sqlmodel_update, hn]
    · intro hn
      simp [SQLModelApp.sqlmodel_update, hn]
    · intro w hw
      simp [SQLModelApp.sqlmodel_update, hw]
    · intro w hw
      simp [SQLModelApp.sqlmodel_update, hw]
    · intro w hw
      simp [SQLModelApp.sqlmodel_update, hw]

/-- C3 witness: patching the stored `bar` item with a body that only sets
`price` keeps the stored name at `Bar`. -/
theorem patch_updates_frame_spec_witness :
    (BodyUpdates.patch_update_item BodyUpdates.items "bar"
        { price := some (some 99) }).map (fun r => r.1.name) = some (some "Bar") := by
  cases e : BodyUpdates.patch_update_item BodyUpdates.items "bar" { price := some (some 99) } with
  | none => exact absurd e (by decide)
  | some r =>
      obtain ⟨it, newdb⟩ := r
      have h := (patch_updates_frame_spec.1 BodyUpdates.items "bar"
        { price := some (some 99) }
        { name := some (some "Bar")
          description := some (some "The bartenders")
          price := some (some 62)
          tax := some 20.2 }
        it newdb (by simp [BodyUpdates.items, List.lookup]) e).1 rfl
      simp [h.1, BodyUpdates.parseItem]


/-- C4: the declared field constraints are enforced exactly: a type-correct
`Item` body of the Body-Fields example fails validation exactly when
`price <= 0` or a provided description exceeds 300 characters, and a
provided query string `q` of the string-validations example is rejected
exactly when it is shorter than 3 characters, longer than 50 characters, or
contains a character outside letters, digits and spaces. -/
theorem field_constraints_spec (c : BodyFields.ItemCandidate) (s : String) :
    (BodyFields.validate_item c = false ↔
      (c.price ≤ 0 ∨ ∃ d, c.description = some d ∧ 300 < d.length)) ∧
    QueryValidations.validate_q none = true ∧
    (QueryValidations.validate_q (some s) = false ↔
      (s.length < 3 ∨ 50 < s.length ∨
        ∃ ch ∈ s.data, QueryValidations.allowed_char ch = false)) := by
  refine ⟨?_, rfl, ?_⟩
  · rcases hdesc : c.description with _ | d
    · simp only [BodyFields.validate_item, hdesc, Bool.true_and,
        decide_eq_false_iff_not, not_lt]
      constructor
      · intro h
        exact Or.inl h
      · rintro (h | ⟨d, hd, _⟩)
        · exact h
        · cases hd
    · simp only [BodyFields.validate_item, hdesc, Bool.and_eq_false_iff,
        decide_eq_false_iff_not, not_le, not_lt, Option.some.injEq]
      constructor
      · rintro (h | h)
        · exact Or.inr ⟨d, rfl, h⟩
        · exact Or.inl h
      · rintro (h | ⟨d2, hd2, h⟩)
        · exact Or.inr h
        · subst hd2
          exact Or.inl h
  · simp only [QueryValidations.validate_q, Bool.and_eq_false_iff,
      decide_eq_false_iff_not, not_le]
    constructor
    · rintro ((h | h) | h)
      · exact Or.inl h
      · exact Or.inr (Or.inl h)
      · refine Or.inr (Or.inr ?_)
        simpa [List.all_eq_true] using h
    · rintro (h | h | ⟨ch, hch, hal⟩)
      · exact Or.inl (Or.inl h)
      · exact Or.inl (Or.inr h)
      · refine Or.inr ?_
        rw [← Bool.not_eq_true, List.all_eq_true]
        intro hc
        exact absurd (hc ch hch) (by simp [hal])

/-- C4 witness: the string "ok!" is rejected (it contains a disallowed
character and is too short), while "abc" passes. -/
theorem field_constraints_spec_witness :
    QueryValidations.validate_q (some "ok!") = false ∧
    BodyFields.validate_item { name := "Foo", price := 1 } = true := by
  constructor
  · exact (field_constraints_spec { name := "Foo", price := 1 } "ok!").2.2.mpr
      (Or.inr (Or.inr ⟨'!', by decide, by decide⟩))
  · decide

/-- C5 counterexample: `limit` is validated only by `Query(le=100)`, so
`limit = -1` passes validation, and a negative SQL `LIMIT` places no upper
bound on the rows SQLite returns: with 101 stored heroes the successful
response holds 101 heroes, more than 100. -/
theorem read_heroes_limit_counterexample :
    SQLModelApp.validate_limit (-1) = true ∧
    100 < (SQLModelApp.read_heroes
        (List.replicate 101 { id := 1, name := "Deadpond", secret_name := "Dive Wilson" })
        0 (-1)).length := by
  refine ⟨by decide, ?_⟩
  simp [SQLModelApp.read_heroes, SQLModelApp.sqlOffset, SQLModelApp.sqlLimit]

/-- C5 (amended): for every request with a nonnegative `limit`,
`read_heroes` returns the stored heroes after skipping the first `offset`
and capped at `limit` rows; since validation enforces `limit <= 100`, such
a successful response holds at most 100 heroes, and any request with
`limit > 100` is rejected by the declared validation. -/
theorem read_heroes_spec (rows : List SQLModelApp.Hero) (offset limit : Int) :
    (0 ≤ limit →
      SQLModelApp.read_heroes rows offset limit =
        (rows.drop offset.toNat).take limit.toNat ∧
      (SQLModelApp.read_heroes rows offset limit).length ≤ limit.toNat ∧
      (SQLModelApp.validate_limit limit = true →
        (SQLModelApp.read_heroes rows offset limit).length ≤ 100)) ∧
    (100 < limit → SQLModelApp.validate_limit limit = false) := by
  constructor
  · intro hl
    have hneg : ¬limit < 0 := not_lt.mpr hl
    have heq : SQLModelApp.read_heroes rows offset limit =
        (rows.drop offset.toNat).take limit.toNat := by
      simp [SQLModelApp.read_heroes, SQLModelApp.sqlOffset, SQLModelApp.sqlLimit, hneg]
    refine ⟨heq, ?_, ?_⟩
    · rw [heq]
      exact List.length_take_le _ _
    · intro hv
      have h100 : limit ≤ 100 := by
        simpa [SQLModelApp.validate_limit] using hv
      have ht : limit.toNat ≤ 100 := by omega
      calc (SQLModelApp.read_heroes rows offset limit).length
          ≤ limit.toNat := by
            rw [heq]
            exact List.length_take_le _ _
        _ ≤ 100 := ht
  · intro h
    simp only [SQLModelApp.validate_limit, decide_eq_false_iff_not, not_le]
    omega

/-- C5 witness: with two stored heroes, offset 1 and the default limit 100,
the response skips the first hero and returns the second. -/
theorem read_heroes_spec_witness :
    SQLModelApp.read_heroes
        [{ id := 1, name := "Deadpond", secret_name := "Dive Wilson" },
         { id := 2, name := "Rusty-Man", secret_name := "Tommy Sharp" }] 1 100 =
      [{ id := 2, name := "Rusty-Man", secret_name := "Tommy Sharp" }] := by
  have h := ((read_heroes_spec
      [{ id := 1, name := "Deadpond", secret_name := "Dive Wilson" },
       { id := 2, name := "Rusty-Man", secret_name := "Tommy Sharp" }] 1 100).1
    (by decide)).1
  exact h.trans (by decide)

/-- C9: two `UserIn` bodies differing only in `password` produce identical
`create_user` responses through `response_model=UserOut`, and the response
document holds exactly the keys `username`, `email` and `full_name` - never
`password` or `hashed_password`. -/
theorem create_user_spec (u : ExtraModels.UserIn) (p : String) :
    ExtraModels.create_user { u with password := p } = ExtraModels.create_user u ∧
    (ExtraModels.encode_user_out (ExtraModels.create_user u)).map Prod.fst =
      ["username", "email", "full_name"] ∧
    "password" ∉ (ExtraModels.encode_user_out (ExtraModels.create_user u)).map Prod.fst ∧
    "hashed_password" ∉
      (ExtraModels.encode_user_out (ExtraModels.create_user u)).map Prod.fst := by
  refine ⟨rfl, rfl, ?_, ?_⟩ <;>
    simp [ExtraModels.encode_user_out, ExtraModels.create_user,
      ExtraModels.filter_user_out, ExtraModels.fake_save_user]

/-- C6: state noninterference between the embedded example files: the
Handling-Errors handler reads only its own `items` and writes nothing; the
Body-Updates PUT reads and writes only its own `items`; `login` reads only
`fake_users_db` and writes nothing; in each case, changing the state that
belongs to a different file changes neither the result nor the file's own
state transition. -/
theorem state_noninterference_spec (s t : GlobalState)
    (item_id username password : String) (body : BodyUpdates.ItemFields) :
    ((runReadItem18 s item_id).2 = s) ∧
    (s.items18 = t.items18 →
      (runReadItem18 s item_id).1 = (runReadItem18 t item_id).1) ∧
    ((runPut21 s item_id body).2.items18 = s.items18 ∧
      (runPut21 s item_id body).2.users30 = s.users30) ∧
    (s.items21 = t.items21 →
      (runPut21 s item_id body).1 = (runPut21 t item_id body).1 ∧
      (runPut21 s item_id body).2.items21 = (runPut21 t item_id body).2.items21) ∧
    ((runLogin30 s username password).2.items18 = s.items18 ∧
      (runLogin30 s username password).2.items21 = s.items21) ∧
    (s.users30 = t.users30 →
      (runLogin30 s username password).1 = (runLogin30 t username password).1 ∧
      (runLogin30 s username password).2.users30 =
        (runLogin30 t username password).2.users30) := by
  refine ⟨?_, ?_, ⟨rfl, rfl⟩, ?_, ⟨rfl, rfl⟩, ?_⟩
  · have hdb : (HandlingErrors.read_item s.items18 item_id).2 = s.items18 := by
      unfold HandlingErrors.read_item
      split <;> rfl
    simp [runReadItem18, hdb]
  · intro h
    simp [runReadItem18, h]
  · intro h
    constructor
    · simp [runPut21, h]
    · simp [runPut21, h]
  · intro h
    have hs : (SimpleOAuth2.login s.users30 username password).2 = s.users30 := by
      unfold SimpleOAuth2.login
      split
      · rfl
      · rename_i user heq
        by_cases hc : SimpleOAuth2.fake_hash_password password = user.hashed_password <;>
          simp [hc]
    have ht : (SimpleOAuth2.login t.users30 username password).2 = t.users30 := by
      unfold SimpleOAuth2.login
      split
      · rfl
      · rename_i user heq
        by_cases hc : SimpleOAuth2.fake_hash_password password = user.hashed_password <;>
          simp [hc]
    constructor
    · simp [runLogin30, h]
    · simp [runLogin30, hs, ht, h]

/-- C6 witness: emptying the Body-Updates dictionary does not change what
the Handling-Errors handler returns for `foo`. -/
theorem state_noninterference_spec_witness :
    (runReadItem18
        { items18 := HandlingErrors.items
          items21 := BodyUpdates.items
          users30 := SimpleOAuth2.fake_users_db } "foo").1 =
    (runReadItem18
        { items18 := HandlingErrors.items
          items21 := []
          users30 := SimpleOAuth2.fake_users_db } "foo").1 :=
  (state_noninterference_spec
    { items18 := HandlingErrors.items
      items21 := BodyUpdates.items
      users30 := SimpleOAuth2.fake_users_db }
    { items18 := HandlingErrors.items
      items21 := []
      users30 := SimpleOAuth2.fake_users_db }
    "foo" "" "" {}).2.1 rfl

/-- C9 witness: changing only the password of a concrete `UserIn` leaves
the serialized response identical. -/
theorem create_user_spec_witness :
    ExtraModels.create_user
        { username := "john", password := "other", email := "john@example.com" } =
      ExtraModels.create_user
        { username := "john", password := "secret", email := "john@example.com" } :=
  (create_user_spec
    { username := "john", password := "secret", email := "john@example.com" }
    "other").1
